import Mathlib

/-!
Shallow embedding of the GOLDEN NIGHTMARE PRO license server
(`src/license_server.py`) and its bulk key-generation utilities
(`src/generate_codes.py`, `src/generate_3days_codes.py`,
`src/generate_5days_codes.py`, `src/generate_lifetime_codes.py`).

Modeling conventions:
* Timestamps are integers; `datetime.now() + timedelta(days=d)` becomes
  `now + d` (one abstract unit per day, used consistently by creation and
  extension).
* `sqlite3` rows become a `LicenseRecord` list; NULL columns are `Option`.
* JSON request fields obtained with `data.get(...)` are `Option String`
  (`none` models an absent or null field).
* Randomness (`random.choices`) is an explicit oracle `choice : Nat → Nat`
  indexing into the alphabet.
* Each Flask handler is a pure function from the database state and the
  request to a result and the new database state.
-/

namespace GoldLicense

/-- A row of the `licenses` table (`init_database`, license_server.py lines
64-79).  Columns that no modeled operation reads (`id`,
`telegram_user_id`, `notes`) are omitted. -/
structure LicenseRecord where
  license_key : String
  device_id : Option String
  user_name : Option String
  plan : String
  created_at : Int
  activated_at : Option Int
  expires_at : Int
  is_active : Bool
  is_used : Bool
deriving DecidableEq, Repr

/-- A row of the append-only `activation_logs` table (lines 81-90). -/
structure LogEntry where
  license_key : String
  device_id : Option String
  action : String
  ip_address : String
deriving DecidableEq, Repr

/-- The database state: the `licenses` table and the `activation_logs`
table, in insertion order. -/
structure DbState where
  licenses : List LicenseRecord
  logs : List LogEntry
deriving DecidableEq, Repr

/-- Python `str.upper()` on the ASCII key strings the server handles. -/
def pyUpper (s : String) : String := String.mk (s.data.map Char.toUpper)

/-- Model of `SELECT * FROM licenses WHERE license_key = ?` plus fetchone: the first
row with the given key (the key column carries a UNIQUE constraint). -/
def lookupLicense (st : DbState) (license_key : String) : Option LicenseRecord :=
  st.licenses.find? (fun r => r.license_key == license_key)

/-- Model of `UPDATE licenses SET ... WHERE license_key = ?`: apply `f` to every row
whose key matches. -/
def updateWhereKey (l : List LicenseRecord) (license_key : String)
    (f : LicenseRecord → LicenseRecord) : List LicenseRecord :=
  l.map (fun r => if r.license_key == license_key then f r else r)

/-- SQL equality of two nullable columns/parameters: `a = b` is true only
when both sides are non-NULL and equal (NULL = anything is not true). -/
def sqlStrEq : Option String → Option String → Bool
  | some a, some b => a == b
  | _, _ => false

-- ═════════════════════════════════════════════════════════════════
-- POST /activate (activate_license, lines 144-203)
-- ═════════════════════════════════════════════════════════════════

/-- The possible responses of the `/activate` handler. -/
inductive ActivateResult where
  | missingFields
  | notFound
  | suspended
  | expired
  | deviceMismatch
  | success (expires_at : Int) (plan : String) (user_name : Option String)
deriving DecidableEq, Repr

/-- The HTTP status attached to each `/activate` response (the `, 400` /
`, 423` / `, 410` / `, 403` second tuple components; `jsonify` alone is
200). -/
def activateHttpStatus : ActivateResult → Nat
  | .missingFields => 400
  | .notFound => 400
  | .suspended => 423
  | .expired => 410
  | .deviceMismatch => 403
  | .success _ _ _ => 200

/-- Model of `activate_license` (lines 144-203).  Here `raw_key` is the
license_key request field (defaulting to the empty string), `device_id`
the device_id request field, and `now` the wall-clock read used for the
expiry comparison and the activated_at write. -/
def activate_license (st : DbState) (raw_key : String) (device_id : Option String)
    (now : Int) (ip : String) : ActivateResult × DbState :=
  let license_key := pyUpper raw_key
  match device_id with
  | none => (.missingFields, st)
  | some d =>
    if license_key = "" ∨ d = "" then (.missingFields, st)
    else
      match lookupLicense st license_key with
      | none => (.notFound, st)
      | some r =>
        if r.is_active = false then (.suspended, st)
        else if r.expires_at < now then (.expired, st)
        else if r.is_used = true ∧ r.device_id ≠ some d then (.deviceMismatch, st)
        else
          (.success r.expires_at r.plan r.user_name,
           { licenses := updateWhereKey st.licenses license_key
               (fun q => { q with device_id := some d, is_used := true,
                                  activated_at := some now }),
             logs := st.logs ++ [⟨license_key, some d, "activate", ip⟩] })

-- ═════════════════════════════════════════════════════════════════
-- POST /verify (verify_license, lines 205-251)
-- ═════════════════════════════════════════════════════════════════

/-- The possible response payloads of the `/verify` handler. -/
inductive VerifyResult where
  | notFoundMsg
  | deviceMsg
  | suspendedMsg
  | expiredMsg
  | ok (expires_at : Int) (plan : String)
deriving DecidableEq, Repr

/-- The `is_active` field of each `/verify` response body. -/
def verifyIsActiveField : VerifyResult → Bool
  | .ok _ _ => true
  | _ => false

/-- Every `return` in `verify_license` is a bare `jsonify(...)`; Flask then
always answers with HTTP 200. -/
def verifyHttpStatus : VerifyResult → Nat
  | _ => 200

/-- Model of `verify_license` (lines 205-251).  Note: no missing-field
check, and the device comparison at line 223 compares the nullable column
against the nullable request field. -/
def verify_license (st : DbState) (raw_key : String) (device_id : Option String)
    (now : Int) (ip : String) : VerifyResult × DbState :=
  let license_key := pyUpper raw_key
  match lookupLicense st license_key with
  | none => (.notFoundMsg, st)
  | some r =>
    if r.device_id ≠ device_id then (.deviceMsg, st)
    else if r.is_active = false then (.suspendedMsg, st)
    else if r.expires_at < now then (.expiredMsg, st)
    else
      (.ok r.expires_at r.plan,
       { st with logs := st.logs ++ [⟨license_key, device_id, "verify", ip⟩] })

-- ═════════════════════════════════════════════════════════════════
-- POST /deactivate (deactivate_license, lines 253-277)
-- ═════════════════════════════════════════════════════════════════

/-- Model of `deactivate_license` (lines 253-277): a single
`UPDATE ... WHERE license_key = ? AND device_id = ?` (SQL NULL semantics
for the device comparison), an unconditional log insert, and an
unconditional success:true response (the returned Bool). -/
def deactivate_license (st : DbState) (raw_key : String) (device_id : Option String)
    (ip : String) : Bool × DbState :=
  let license_key := pyUpper raw_key
  (true,
   { licenses := st.licenses.map (fun r =>
       if r.license_key == license_key && sqlStrEq r.device_id device_id
       then { r with device_id := none, is_used := false } else r),
     logs := st.logs ++ [⟨license_key, device_id, "deactivate", ip⟩] })

-- ═════════════════════════════════════════════════════════════════
-- /extend admin command (extend_command, lines 522-562) and the
-- ext7/ext30/ext90/ext365 buttons (button_callback, lines 672-698),
-- which run the same SELECT / compare-with-now / UPDATE sequence.
-- ═════════════════════════════════════════════════════════════════

/-- Outcome of the extend admin command. -/
inductive ExtendResult where
  | notFound
  | extended (new_expiry : Int)
deriving DecidableEq, Repr

/-- Model of `extend_command` (lines 522-562): look the key up, clamp a stale expiry
to `now`, add `days`, write the new expiry back. -/
def extend_command (st : DbState) (raw_key : String) (days : Int) (now : Int) :
    ExtendResult × DbState :=
  let license_key := pyUpper raw_key
  match lookupLicense st license_key with
  | none => (.notFound, st)
  | some r =>
    let current := if r.expires_at < now then now else r.expires_at
    let new_expiry := current + days
    (.extended new_expiry,
     { st with licenses := (updateWhereKey st.licenses license_key
         (fun q => { q with expires_at := new_expiry })) })

/-- Model of `stop_command` (writing 0) and `activate_command` (writing 1),
lines 474-520: `UPDATE licenses SET is_active = ? WHERE license_key = ?`. -/
def set_is_active (st : DbState) (raw_key : String) (b : Bool) : DbState :=
  { st with licenses := (updateWhereKey st.licenses (pyUpper raw_key)
      (fun q => { q with is_active := b })) }

-- ═════════════════════════════════════════════════════════════════
-- create_license (lines 115-136)
-- ═════════════════════════════════════════════════════════════════

/-- The fault surfaced by the `INSERT` when the UNIQUE constraint on
`license_key` is violated (an uncaught `sqlite3.IntegrityError`). -/
inductive CreateError where
  | duplicateKey
deriving DecidableEq, Repr

/-- The `INSERT INTO licenses` of `create_license`: fresh rows get
`device_id NULL`, `is_used 0` (table defaults), `is_active 1`,
`expires_at = now + days`. -/
def insertLicense (st : DbState) (license_key : String) (plan : String) (days : Int)
    (user_name : Option String) (now : Int) : Except CreateError DbState :=
  if st.licenses.any (fun r => r.license_key == license_key) then .error .duplicateKey
  else .ok { st with licenses := st.licenses ++
    [⟨license_key, none, user_name, plan, now, none, now + days, true, false⟩] }

/-- Model of `create_license` (lines 115-136): exactly one call to
`generate_license_code` (sample 0 of the oracle), then the INSERT — there
is no collision check and no retry loop around the generator. -/
def create_license (gen : Nat → String) (st : DbState) (plan : String) (days : Int)
    (user_name : Option String) (now : Int) : Except CreateError (String × DbState) :=
  let license_key := gen 0
  match insertLicense st license_key plan days user_name now with
  | .error e => .error e
  | .ok st' => .ok (license_key, st')

-- ═════════════════════════════════════════════════════════════════
-- Key generators and the key-format grammar
-- ═════════════════════════════════════════════════════════════════

/-- The unambiguous alphabet of `generate_license_code`
(license_server.py line 108): no 0, O, 1, I. -/
def SERVER_CHARS : List Char := "ABCDEFGHJKLMNPQRSTUVWXYZ23456789".data

/-- The alphabet `string.ascii_uppercase + string.digits` the bulk
utilities draw from (it contains 0, O, 1 and I). -/
def FULL_CHARS : List Char := "ABCDEFGHIJKLMNOPQRSTUVWXYZ0123456789".data

/-- One draw of `random.choices(chars, ...)`: the random stream is the
oracle `choice`, reduced modulo the alphabet size. -/
def pickChar (chars : List Char) (choice : Nat → Nat) (i : Nat) : Char :=
  chars.getD (choice i % chars.length) 'A'

/-- One 4-character segment joined from `random.choices(chars, k=4)`,
consuming oracle samples `off .. off+3`. -/
def randSeg (chars : List Char) (choice : Nat → Nat) (off : Nat) : List Char :=
  [pickChar chars choice off, pickChar chars choice (off + 1),
   pickChar chars choice (off + 2), pickChar chars choice (off + 3)]

/-- Model of `generate_license_code` (license_server.py lines 106-113):
`GNP-` + three 4-character segments over the unambiguous alphabet. -/
def generate_license_code (choice : Nat → Nat) : String :=
  String.mk ('G' :: 'N' :: 'P' :: '-' ::
    (randSeg SERVER_CHARS choice 0 ++ '-' ::
      (randSeg SERVER_CHARS choice 4 ++ '-' :: randSeg SERVER_CHARS choice 8)))

/-- Model of `generate_code` (generate_lifetime_codes.py lines 6-12, same
function in generate_5days_codes.py): `GNP-` + FOUR 4-character segments
over the full uppercase+digits alphabet. -/
def generate_code_lifetime (choice : Nat → Nat) : String :=
  String.mk ('G' :: 'N' :: 'P' :: '-' ::
    (randSeg FULL_CHARS choice 0 ++ '-' ::
      (randSeg FULL_CHARS choice 4 ++ '-' ::
        (randSeg FULL_CHARS choice 8 ++ '-' :: randSeg FULL_CHARS choice 12))))

/-- Model of `generate_code` (generate_codes.py / generate_3days_codes.py)
and of the generator in generate_all_codes_4parts.py: `GNP-` + three
4-character segments over the full uppercase+digits alphabet. -/
def generate_code_bulk (choice : Nat → Nat) : String :=
  String.mk ('G' :: 'N' :: 'P' :: '-' ::
    (randSeg FULL_CHARS choice 0 ++ '-' ::
      (randSeg FULL_CHARS choice 4 ++ '-' :: randSeg FULL_CHARS choice 8)))

/-- Modelled from the spec (§3): the key grammar `PREFIX-XXXX-XXXX-XXXX` —
18 characters, prefix `GNP-`, dashes at offsets 8 and 13, and the three
4-character segments drawn from the unambiguous alphabet. -/
def specKeyFormat (s : String) : Bool :=
  let cs := s.data
  (cs.length == 18) &&
  (cs.take 4 == ['G', 'N', 'P', '-']) &&
  (cs.getD 8 'x' == '-') &&
  (cs.getD 13 'x' == '-') &&
  (((cs.drop 4).take 4 ++ (cs.drop 9).take 4 ++ (cs.drop 14).take 4).all
    (fun c => SERVER_CHARS.contains c))

-- ═════════════════════════════════════════════════════════════════
-- Validity predicate and the record invariant
-- ═════════════════════════════════════════════════════════════════

/-- The validity predicate (spec §3), expressed with the comparisons the
code performs: administratively active, not past expiry, and either unused
or bound to the requesting device. -/
def valid_for_use (r : LicenseRecord) (device : String) (now : Int) : Bool :=
  r.is_active && !(r.expires_at < now) && (!r.is_used || r.device_id == some device)

/-- Per-record invariant: `is_used = 1` exactly when `device_id` is
non-NULL. -/
def recInv (r : LicenseRecord) : Prop := r.is_used = true ↔ r.device_id ≠ none

/-- The invariant over the whole table. -/
def stInv (st : DbState) : Prop := ∀ r ∈ st.licenses, recInv r

instance (r : LicenseRecord) : Decidable (recInv r) := by
  unfold recInv; infer_instance

instance (st : DbState) : Decidable (stInv st) := by
  unfold stInv; exact List.decidableBAll _ _

-- ═════════════════════════════════════════════════════════════════
-- The two database interactions of activate_license, taken apart.
-- activate_license runs its SELECT (line 158) and its UPDATE/INSERT
-- (lines 182-192) as separate autocommitted SQLite statements on a
-- per-request connection: nothing groups them into one transaction, so
-- another request's statements can commit in between.  The race model
-- below splits activate accordingly: a read step, then a decide+write
-- step whose checks look at the stale snapshot.
-- ═════════════════════════════════════════════════════════════════

/-- The check-then-write tail of `activate_license` (lines 166-195),
deciding on a previously fetched `snapshot` but writing to the current
state.  Returns the `success` flag of the response. -/
def activate_decide_write (st : DbState) (snapshot : Option LicenseRecord)
    (license_key : String) (d : String) (now : Int) (ip : String) : Bool × DbState :=
  match snapshot with
  | none => (false, st)
  | some r =>
    if r.is_active = false then (false, st)
    else if r.expires_at < now then (false, st)
    else if r.is_used = true ∧ r.device_id ≠ some d then (false, st)
    else
      (true,
       { licenses := updateWhereKey st.licenses license_key
           (fun q => { q with device_id := some d, is_used := true,
                              activated_at := some now }),
         logs := st.logs ++ [⟨license_key, some d, "activate", ip⟩] })

/-- The interleaving SELECT-A, SELECT-B, UPDATE-A, UPDATE-B of two
concurrent activate requests for the same key: both reads happen before
either write commits. -/
def racy_double_activate (st : DbState) (license_key dA dB : String) (now : Int) :
    Bool × Bool × DbState :=
  let snapA := lookupLicense st license_key
  let snapB := lookupLicense st license_key
  let resA := activate_decide_write st snapA license_key dA now "ipA"
  let resB := activate_decide_write resA.2 snapB license_key dB now "ipB"
  (resA.1, resB.1, resB.2)

-- ═════════════════════════════════════════════════════════════════
-- Spec-side cascade for the activate precedence claim
-- ═════════════════════════════════════════════════════════════════

/-- Modelled from the spec's activate contract (claim C3), amended in one
place: the expiry check the code performs is strict (`now > expiresAt`),
not `now ≥ expiresAt`.  Outcome cascade for a request with both fields
present: NotFound, then Suspended, then Expired, then DeviceMismatch,
otherwise success. -/
def activate_spec_result (st : DbState) (license_key : String) (d : String)
    (now : Int) : ActivateResult :=
  match lookupLicense st license_key with
  | none => .notFound
  | some r =>
    if r.is_active = false then .suspended
    else if now > r.expires_at then .expired
    else if r.is_used = true ∧ r.device_id ≠ some d then .deviceMismatch
    else .success r.expires_at r.plan r.user_name

-- ═════════════════════════════════════════════════════════════════
-- Concrete records and stores used by witnesses and counterexamples
-- ═════════════════════════════════════════════════════════════════

/-- C1: an unused, administratively active, far-from-expiry record. -/
def c1rec : LicenseRecord := ⟨"KR", none, none, "monthly", 0, none, 100, true, false⟩

/-- C1: store holding only `c1rec`. -/
def c1st : DbState := ⟨[c1rec], []⟩

/-- C2: an already-expired record (`expires_at = -5`). -/
def c2rec : LicenseRecord := ⟨"K2", none, none, "monthly", -10, none, -5, true, false⟩

/-- C2: store holding only `c2rec`. -/
def c2st : DbState := ⟨[c2rec], []⟩

/-- C3: an unused active record whose expiry equals the request time. -/
def c3rec : LicenseRecord := ⟨"K3", none, none, "monthly", 0, none, 50, true, false⟩

/-- C3: store holding only `c3rec`. -/
def c3st : DbState := ⟨[c3rec], []⟩

/-- C4: a never-activated record (`device_id` NULL, `is_used` 0). -/
def c4rec : LicenseRecord := ⟨"K4", none, none, "monthly", 0, none, 100, true, false⟩

/-- C4: store holding only `c4rec`. -/
def c4st : DbState := ⟨[c4rec], []⟩

/-- C5: store that already holds the key the generator is about to emit. -/
def c5st : DbState :=
  ⟨[⟨"GNP-AAAA-AAAA-AAAA", none, none, "monthly", 0, none, 100, true, false⟩], []⟩

/-- C5: generator oracle whose first sample collides with the stored key
and whose second sample is fresh. -/
def c5gen : Nat → String
  | 0 => "GNP-AAAA-AAAA-AAAA"
  | _ => "GNP-BBBB-BBBB-BBBB"

/-- C7: a record already bound to device D, `activated_at = 5`. -/
def c7rec : LicenseRecord := ⟨"K7", some "D", none, "monthly", 0, some 5, 100, true, true⟩

/-- C7: store holding only `c7rec`. -/
def c7st : DbState := ⟨[c7rec], []⟩

/-- C9: a record bound to device D. -/
def d9rec : LicenseRecord := ⟨"K9", some "D", none, "monthly", 0, none, 100, true, true⟩

/-- C9: store holding only `d9rec`. -/
def d9st : DbState := ⟨[d9rec], []⟩

/-- C10: a store satisfying the record invariant. -/
def c10st : DbState :=
  ⟨[⟨"KA", some "D", none, "monthly", 0, some 1, 100, true, true⟩,
    ⟨"KB", none, none, "trial", 0, none, 7, true, false⟩], []⟩

-- ═════════════════════════════════════════════════════════════════
-- Helper lemmas
-- ═════════════════════════════════════════════════════════════════

theorem lookup_updateWhereKey (l : List LicenseRecord) (key : String)
    (f : LicenseRecord → LicenseRecord)
    (hf : ∀ r, (f r).license_key = r.license_key) :
    (updateWhereKey l key f).find? (fun r => r.license_key == key)
      = (l.find? (fun r => r.license_key == key)).map f := by
  induction l with
  | nil => rfl
  | cons a t ih =>
    by_cases h : (a.license_key == key) = true
    · have hstep : updateWhereKey (a :: t) key f = f a :: updateWhereKey t key f := by
        simp only [updateWhereKey, List.map_cons, if_pos h]
      have hfa : ((f a).license_key == key) = true := by rw [hf]; exact h
      rw [hstep, List.find?_cons, List.find?_cons, hfa, h]
      rfl
    · have hstep : updateWhereKey (a :: t) key f = a :: updateWhereKey t key f := by
        simp only [updateWhereKey, List.map_cons, if_neg h]
      have h' : (a.license_key == key) = false := Bool.eq_false_iff.mpr h
      rw [hstep, List.find?_cons, List.find?_cons, h']
      exact ih

theorem pickChar_mem_SERVER (choice : Nat → Nat) (i : Nat) :
    pickChar SERVER_CHARS choice i ∈ SERVER_CHARS := by
  unfold pickChar
  have hlt : choice i % SERVER_CHARS.length < SERVER_CHARS.length :=
    Nat.mod_lt _ (by decide)
  rw [List.getD_eq_getElem _ _ hlt]
  exact List.getElem_mem hlt

theorem verify_licenses_frame (st : DbState) (raw_key : String)
    (device_id : Option String) (now : Int) (ip : String) :
    (verify_license st raw_key device_id now ip).2.licenses = st.licenses := by
  simp only [verify_license]
  split
  · rfl
  · split
    · rfl
    · split
      · rfl
      · split
        · rfl
        · rfl

theorem stInv_map (l : List LicenseRecord) (g : LicenseRecord → LicenseRecord)
    (h : ∀ r ∈ l, recInv r) (hg : ∀ r ∈ l, recInv r → recInv (g r)) :
    ∀ r ∈ l.map g, recInv r := by
  intro r hr
  obtain ⟨q, hq, rfl⟩ := List.mem_map.mp hr
  exact hg q hq (h q hq)

-- ═════════════════════════════════════════════════════════════════
-- Claim C6 — verify is pure
-- ═════════════════════════════════════════════════════════════════

/-- C6: for every key and every sequence of verify calls, `verify_license`
leaves the `licenses` table unchanged — so it never modifies `is_active`,
`device_id`, `is_used` or `expires_at` of any record, every lookup is
unaffected, the validity predicate's value is unaffected, and interleaved
verify calls commute on the `licenses` table. -/
theorem c6_verify_is_pure (st : DbState) (k1 : String) (d1 : Option String)
    (n1 : Int) (i1 : String) (k2 : String) (d2 : Option String) (n2 : Int)
    (i2 : String) (k : String) (dev : String) (now : Int) :
    (verify_license st k1 d1 n1 i1).2.licenses = st.licenses
    ∧ lookupLicense (verify_license st k1 d1 n1 i1).2 k = lookupLicense st k
    ∧ ((lookupLicense (verify_license st k1 d1 n1 i1).2 k).map
          (fun r => valid_for_use r dev now)
        = (lookupLicense st k).map (fun r => valid_for_use r dev now))
    ∧ (verify_license (verify_license st k1 d1 n1 i1).2 k2 d2 n2 i2).2.licenses
        = (verify_license (verify_license st k2 d2 n2 i2).2 k1 d1 n1 i1).2.licenses := by
  have h1 := verify_licenses_frame st k1 d1 n1 i1
  have h2 := verify_licenses_frame st k2 d2 n2 i2
  have h3 := verify_licenses_frame (verify_license st k1 d1 n1 i1).2 k2 d2 n2 i2
  have h4 := verify_licenses_frame (verify_license st k2 d2 n2 i2).2 k1 d1 n1 i1
  have hl : lookupLicense (verify_license st k1 d1 n1 i1).2 k = lookupLicense st k := by
    unfold lookupLicense; rw [h1]
  exact ⟨h1, hl, by rw [hl], by rw [h3, h4, h1, h2]⟩

-- ═════════════════════════════════════════════════════════════════
-- Claim C9 — deactivate semantics
-- ═════════════════════════════════════════════════════════════════

/-- C9: every deactivate request answers `success:true` — also for absent
keys and mismatched devices; a `deactivate` log entry is appended for
every request; a record is changed only if it carries the requested key
and its stored device matches the requested device in SQL terms, in which
case `device_id` and `is_used` are cleared together; any record touched by
the clearing had its stored device equal to the (present) requested
device. -/
theorem c9_deactivate_semantics (st : DbState) (raw_key : String)
    (device_id : Option String) (ip : String) :
    (deactivate_license st raw_key device_id ip).1 = true
    ∧ (deactivate_license st raw_key device_id ip).2.logs
        = st.logs ++ [⟨pyUpper raw_key, device_id, "deactivate", ip⟩]
    ∧ (∀ r ∈ st.licenses,
        (r.license_key == pyUpper raw_key && sqlStrEq r.device_id device_id) = false →
          r ∈ (deactivate_license st raw_key device_id ip).2.licenses)
    ∧ (∀ r ∈ st.licenses,
        (r.license_key == pyUpper raw_key && sqlStrEq r.device_id device_id) = true →
          { r with device_id := none, is_used := false }
            ∈ (deactivate_license st raw_key device_id ip).2.licenses)
    ∧ (∀ r' ∈ (deactivate_license st raw_key device_id ip).2.licenses,
        r' ∈ st.licenses
        ∨ ∃ q ∈ st.licenses, q.license_key = pyUpper raw_key
            ∧ sqlStrEq q.device_id device_id = true
            ∧ r' = { q with device_id := none, is_used := false })
    ∧ (∀ q : LicenseRecord, sqlStrEq q.device_id device_id = true →
        ∃ s, q.device_id = some s ∧ device_id = some s) := by
  refine ⟨rfl, rfl, ?_, ?_, ?_, ?_⟩
  · intro r hr hcond
    refine List.mem_map.mpr ⟨r, hr, ?_⟩
    simp [hcond]
  · intro r hr hcond
    refine List.mem_map.mpr ⟨r, hr, ?_⟩
    simp [hcond]
  · intro r' hr'
    obtain ⟨q, hq, hEq⟩ := List.mem_map.mp hr'
    by_cases hc : (q.license_key == pyUpper raw_key && sqlStrEq q.device_id device_id) = true
    · right
      have hc' : (q.license_key == pyUpper raw_key) = true
          ∧ sqlStrEq q.device_id device_id = true := by simpa using hc
      refine ⟨q, hq, beq_iff_eq.mp hc'.1, hc'.2, ?_⟩
      rw [← hEq]; simp [hc]
    · left
      rw [← hEq, if_neg hc]
      exact hq
  · intro q hsq
    cases hd : q.device_id with
    | none => rw [hd] at hsq; cases device_id <;> simp [sqlStrEq] at hsq
    | some a =>
      cases hdd : device_id with
      | none => rw [hd, hdd] at hsq; simp [sqlStrEq] at hsq
      | some b =>
        rw [hd, hdd] at hsq
        have hab : a = b := by simpa [sqlStrEq] using hsq
        exact ⟨a, rfl, by rw [hab]⟩

/-- Witness for C9 at a concrete store: a deactivate request from the wrong
device still answers success, and the record survives unchanged. -/
theorem c9_deactivate_witness :
    (deactivate_license d9st "K9" (some "E") "ip").1 = true
    ∧ d9rec ∈ (deactivate_license d9st "K9" (some "E") "ip").2.licenses := by
  refine ⟨(c9_deactivate_semantics d9st "K9" (some "E") "ip").1, ?_⟩
  exact (c9_deactivate_semantics d9st "K9" (some "E") "ip").2.2.1 d9rec
    (by decide) (by decide)

-- ═════════════════════════════════════════════════════════════════
-- Claim C3 — activate error precedence
-- ═════════════════════════════════════════════════════════════════

/-- C3 (amended: the expiry check is strict, failing only when
`now > expiresAt`): for every activate request with both fields present,
the outcome is exactly the spec cascade NotFound → Suspended → Expired →
DeviceMismatch → success, the HTTP statuses are 400/423/410/403, failures
leave the store untouched, and success binds the requesting device. -/
theorem c3_activate_precedence (st : DbState) (raw_key : String) (d : String)
    (now : Int) (ip : String) (hk : pyUpper raw_key ≠ "") (hd : d ≠ "") :
    (activate_license st raw_key (some d) now ip).1
      = activate_spec_result st (pyUpper raw_key) d now
    ∧ activateHttpStatus .notFound = 400
    ∧ activateHttpStatus .suspended = 423
    ∧ activateHttpStatus .expired = 410
    ∧ activateHttpStatus .deviceMismatch = 403
    ∧ ((∃ e p u, (activate_license st raw_key (some d) now ip).1 = .success e p u)
        ∨ (activate_license st raw_key (some d) now ip).2 = st)
    ∧ (∀ e p u, (activate_license st raw_key (some d) now ip).1 = .success e p u →
        lookupLicense (activate_license st raw_key (some d) now ip).2 (pyUpper raw_key)
          = (lookupLicense st (pyUpper raw_key)).map
              (fun r => { r with device_id := some d, is_used := true,
                                 activated_at := some now })) := by
  have hnot : ¬(pyUpper raw_key = "" ∨ d = "") := by
    rintro (h | h)
    · exact hk h
    · exact hd h
  refine ⟨?_, rfl, rfl, rfl, rfl, ?_, ?_⟩
  · simp only [activate_license, activate_spec_result, if_neg hnot]
    cases hL : lookupLicense st (pyUpper raw_key) with
    | none => rfl
    | some r =>
      by_cases h1 : r.is_active = false
      · simp [h1]
      · by_cases h2 : r.expires_at < now
        · simp [h1, h2]
        · by_cases h3 : r.is_used = true ∧ r.device_id ≠ some d
          · simp [h1, h2, h3]
          · simp [h1, h2, h3]
  · simp only [activate_license, if_neg hnot]
    cases hL : lookupLicense st (pyUpper raw_key) with
    | none => exact Or.inr rfl
    | some r =>
      by_cases h1 : r.is_active = false
      · simp only [if_pos h1]
        exact Or.inr trivial
      · simp only [if_neg h1]
        by_cases h2 : r.expires_at < now
        · simp only [if_pos h2]
          exact Or.inr trivial
        · simp only [if_neg h2]
          by_cases h3 : r.is_used = true ∧ r.device_id ≠ some d
          · simp only [if_pos h3]
            exact Or.inr trivial
          · simp only [if_neg h3]
            exact Or.inl ⟨r.expires_at, r.plan, r.user_name, rfl⟩
  · simp only [activate_license, if_neg hnot]
    cases hL : lookupLicense st (pyUpper raw_key) with
    | none =>
      intro e p u h
      cases h
    | some r =>
      by_cases h1 : r.is_active = false
      · simp only [if_pos h1]
        intro e p u h
        cases h
      · simp only [if_neg h1]
        by_cases h2 : r.expires_at < now
        · simp only [if_pos h2]
          intro e p u h
          cases h
        · simp only [if_neg h2]
          by_cases h3 : r.is_used = true ∧ r.device_id ≠ some d
          · simp only [if_pos h3]
            intro e p u h
            cases h
          · simp only [if_neg h3]
            intro e p u _
            simp only [lookupLicense]
            rw [lookup_updateWhereKey st.licenses (pyUpper raw_key)
                  (fun q => { q with device_id := some d, is_used := true,
                                     activated_at := some now })
                  (fun q => rfl)]
            rw [show List.find? (fun q => q.license_key == pyUpper raw_key) st.licenses
                  = some r from hL]

/-- Counterexample to C3 as stated: at `now = expiresAt` (so `now ≥
expiresAt`) the code does not fail Expired — it activates successfully,
because line 172 tests `datetime.now() > expires_at` strictly. -/
theorem c3_counterexample :
    c3rec.expires_at ≤ (50 : Int)
    ∧ (activate_license c3st "K3" (some "DEV") 50 "ip").1
        = .success 50 "monthly" none
    ∧ (activate_license c3st "K3" (some "DEV") 50 "ip").1 ≠ .expired := by
  refine ⟨by decide, by decide, by decide⟩

/-- Witness for C3 at a concrete request. -/
theorem c3_witness :
    pyUpper "K3" ≠ "" ∧ "DEV" ≠ ""
    ∧ (activate_license c3st "K3" (some "DEV") 0 "ip").1
        = activate_spec_result c3st (pyUpper "K3") "DEV" 0 := by
  refine ⟨by decide, by decide, ?_⟩
  exact (c3_activate_precedence c3st "K3" "DEV" 0 "ip" (by decide) (by decide)).1

-- ═════════════════════════════════════════════════════════════════
-- Claim C2 — extend semantics
-- ═════════════════════════════════════════════════════════════════

/-- C2 (amended: "strictly after now" needs a positive day count — the
command parses and accepts any integer, including 0): extend on an absent
key reports NotFound and changes nothing; on a present key the new expiry
is `max(now, current expiry) + days` — counted from `now` when the key is
already expired — the record is updated accordingly, and whenever
`days ≥ 1` the new expiry is strictly after `now`. -/
theorem c2_extend_semantics (st : DbState) (raw_key : String) (days now : Int) :
    (lookupLicense st (pyUpper raw_key) = none →
      extend_command st raw_key days now = (.notFound, st))
    ∧ (∀ r, lookupLicense st (pyUpper raw_key) = some r →
        (extend_command st raw_key days now).1
            = .extended (max now r.expires_at + days)
        ∧ lookupLicense (extend_command st raw_key days now).2 (pyUpper raw_key)
            = some { r with expires_at := max now r.expires_at + days }
        ∧ (1 ≤ days → now < max now r.expires_at + days)) := by
  constructor
  · intro h
    simp only [extend_command, h]
  · intro r h
    have hmax : (if r.expires_at < now then now else r.expires_at)
        = max now r.expires_at := by
      rcases le_or_lt now r.expires_at with hle | hlt
      · rw [if_neg (not_lt.mpr hle), max_eq_right hle]
      · rw [if_pos hlt, max_eq_left hlt.le]
    refine ⟨?_, ?_, ?_⟩
    · simp only [extend_command, h, hmax]
    · simp only [extend_command, h, hmax]
      simp only [lookupLicense]
      rw [lookup_updateWhereKey st.licenses (pyUpper raw_key)
            (fun q => { q with expires_at := max now r.expires_at + days })
            (fun q => rfl)]
      rw [show List.find? (fun q => q.license_key == pyUpper raw_key) st.licenses
            = some r from h]
      rfl
    · intro hdays
      have hle := le_max_left now r.expires_at
      omega

/-- Counterexample to C2 as stated: extending an already-expired key by
`d = 0` days (accepted by the command's `int(...)` parse) produces
`expiresAt = now`, which is not strictly after `now`. -/
theorem c2_counterexample :
    c2rec.expires_at < (0 : Int)
    ∧ (extend_command c2st "K2" 0 0).1 = .extended 0
    ∧ ¬((0 : Int) < 0) := by decide

/-- Witness for C2 at a concrete store: extending the expired key by 30
days from `now = 0` yields expiry 30. -/
theorem c2_witness :
    lookupLicense c2st (pyUpper "K2") = some c2rec
    ∧ (extend_command c2st "K2" 30 0).1 = .extended (max 0 c2rec.expires_at + 30)
    ∧ (0 : Int) < max 0 c2rec.expires_at + 30 := by
  refine ⟨by decide, ?_, ?_⟩
  · exact ((c2_extend_semantics c2st "K2" 30 0).2 c2rec (by decide)).1
  · exact ((c2_extend_semantics c2st "K2" 30 0).2 c2rec (by decide)).2.2 (by decide)

-- ═════════════════════════════════════════════════════════════════
-- Claim C4 — verify device mismatch
-- ═════════════════════════════════════════════════════════════════

/-- C4 (amended: a request that omits `device_id` is compared as NULL, so
against a never-activated key it is not a mismatch): whenever the stored
device differs from the request's `device_id`, verify answers the
device-mismatch failure and leaves the store untouched; in particular
every request that supplies a device id against a never-activated key
mismatches; verify never implicitly activates (its licenses table is
unchanged on every call); and every verify response carries HTTP 200,
reporting failure only through the `is_active:false` body field. -/
theorem c4_verify_device_mismatch (st : DbState) (raw_key : String)
    (device_id : Option String) (now : Int) (ip : String) (r : LicenseRecord)
    (h : lookupLicense st (pyUpper raw_key) = some r) :
    (r.device_id ≠ device_id →
      verify_license st raw_key device_id now ip = (.deviceMsg, st))
    ∧ (r.device_id = none → ∀ s : String,
        verify_license st raw_key (some s) now ip = (.deviceMsg, st))
    ∧ verifyIsActiveField .deviceMsg = false
    ∧ (∀ res : VerifyResult, verifyHttpStatus res = 200)
    ∧ (verify_license st raw_key device_id now ip).2.licenses = st.licenses := by
  refine ⟨?_, ?_, rfl, fun res => rfl,
    verify_licenses_frame st raw_key device_id now ip⟩
  · intro hne
    simp only [verify_license, h, if_pos hne]
  · intro hnone s
    have hne : r.device_id ≠ some s := by rw [hnone]; simp
    simp only [verify_license, h, if_pos hne]

/-- Counterexample to C4 as stated: a verify request that omits `device_id`
against a never-activated (active, unexpired) key does not produce a
device-mismatch failure — it succeeds, because NULL compares equal to the
absent field. -/
theorem c4_counterexample :
    c4rec.device_id = none
    ∧ lookupLicense c4st (pyUpper "K4") = some c4rec
    ∧ (verify_license c4st "K4" none 0 "ip").1 = .ok 100 "monthly"
    ∧ (verify_license c4st "K4" none 0 "ip").1 ≠ .deviceMsg := by decide

/-- Witness for C4 at a concrete store: a present device id against the
never-activated key K4 mismatches. -/
theorem c4_witness :
    lookupLicense c4st (pyUpper "K4") = some c4rec
    ∧ verify_license c4st "K4" (some "B") 0 "ip" = (.deviceMsg, c4st) := by
  refine ⟨by decide, ?_⟩
  exact (c4_verify_device_mismatch c4st "K4" (some "B") 0 "ip" c4rec
    (by decide)).1 (by decide)

-- ═════════════════════════════════════════════════════════════════
-- Claim C7 — re-activation by the bound device
-- ═════════════════════════════════════════════════════════════════

/-- C7 (amended: re-activation by the already-bound device succeeds and
leaves `device_id` and `is_used` unchanged, but `activated_at` is
overwritten with the current time by every successful activation, not set
only on the first): a second activate by the bound device of an active,
unexpired, used record succeeds and rewrites exactly `activated_at`. -/
theorem c7_reactivation (st : DbState) (raw_key : String) (d : String)
    (now : Int) (ip : String) (r : LicenseRecord)
    (h : lookupLicense st (pyUpper raw_key) = some r)
    (hk : pyUpper raw_key ≠ "") (hd : d ≠ "")
    (hb : r.device_id = some d) (hu : r.is_used = true)
    (ha : r.is_active = true) (he : ¬ r.expires_at < now) :
    (activate_license st raw_key (some d) now ip).1
        = .success r.expires_at r.plan r.user_name
    ∧ lookupLicense (activate_license st raw_key (some d) now ip).2 (pyUpper raw_key)
        = some { r with activated_at := some now }
    ∧ ({ r with activated_at := some now } : LicenseRecord).device_id = r.device_id
    ∧ ({ r with activated_at := some now } : LicenseRecord).is_used = r.is_used := by
  have hnot : ¬(pyUpper raw_key = "" ∨ d = "") := by
    rintro (hx | hx)
    · exact hk hx
    · exact hd hx
  have h1 : ¬(r.is_active = false) := by rw [ha]; simp
  have h3 : ¬(r.is_used = true ∧ r.device_id ≠ some d) := by
    rintro ⟨-, hne⟩
    exact hne hb
  have hrec : ({ r with device_id := some d, is_used := true, activated_at := some now } : LicenseRecord) = { r with activated_at := some now } := by
    rw [← hb, ← hu]
  refine ⟨?_, ?_, rfl, rfl⟩
  · simp only [activate_license, if_neg hnot, h, if_neg h1, if_neg he, if_neg h3]
  · simp only [activate_license, if_neg hnot, h, if_neg h1, if_neg he, if_neg h3]
    simp only [lookupLicense]
    rw [lookup_updateWhereKey st.licenses (pyUpper raw_key)
          (fun q => { q with device_id := some d, is_used := true,
                             activated_at := some now })
          (fun q => rfl)]
    rw [show List.find? (fun q => q.license_key == pyUpper raw_key) st.licenses
          = some r from h]
    rw [Option.map_some']
    rw [hrec]

/-- Counterexample to C7 as stated: re-activating K7 (bound to device D,
first activated at time 5) at time 7 succeeds but does not leave the
record unchanged — `activated_at` is overwritten from 5 to 7. -/
theorem c7_counterexample :
    c7rec.activated_at = some 5
    ∧ (activate_license c7st "K7" (some "D") 7 "ip").1 = .success 100 "monthly" none
    ∧ lookupLicense (activate_license c7st "K7" (some "D") 7 "ip").2 "K7"
        = some { c7rec with activated_at := some 7 }
    ∧ lookupLicense (activate_license c7st "K7" (some "D") 7 "ip").2 "K7"
        ≠ some c7rec := by decide

/-- Witness for C7 at a concrete store. -/
theorem c7_witness :
    (activate_license c7st "K7" (some "D") 7 "ip").1 = .success 100 "monthly" none := by
  exact (c7_reactivation c7st "K7" "D" 7 "ip" c7rec (by decide) (by decide)
    (by decide) (by decide) (by decide) (by decide) (by decide)).1

-- ═════════════════════════════════════════════════════════════════
-- Claim C1 — concurrent double activation
-- ═════════════════════════════════════════════════════════════════

/-- Faithfulness of the two-phase decomposition of `activate_license`:
deciding on the snapshot that equals the current lookup and then writing
produces exactly the state `activate_license` produces, and the Boolean
flag is true exactly when `activate_license` answers success. -/
theorem activate_phases_agree (st : DbState) (raw_key : String) (d : String)
    (now : Int) (ip : String) (hk : pyUpper raw_key ≠ "") (hd : d ≠ "") :
    (activate_decide_write st (lookupLicense st (pyUpper raw_key))
        (pyUpper raw_key) d now ip).2
      = (activate_license st raw_key (some d) now ip).2
    ∧ ((activate_decide_write st (lookupLicense st (pyUpper raw_key))
          (pyUpper raw_key) d now ip).1 = true
        ↔ ∃ e p u, (activate_license st raw_key (some d) now ip).1 = .success e p u) := by
  have hnot : ¬(pyUpper raw_key = "" ∨ d = "") := by
    rintro (hx | hx)
    · exact hk hx
    · exact hd hx
  simp only [activate_license, activate_decide_write, if_neg hnot]
  cases hL : lookupLicense st (pyUpper raw_key) with
  | none =>
    refine ⟨rfl, ?_⟩
    simp
  | some r =>
    by_cases h1 : r.is_active = false
    · simp only [if_pos h1]
      refine ⟨trivial, ?_⟩
      simp
    · simp only [if_neg h1]
      by_cases h2 : r.expires_at < now
      · simp only [if_pos h2]
        refine ⟨trivial, ?_⟩
        simp
      · simp only [if_neg h2]
        by_cases h3 : r.is_used = true ∧ r.device_id ≠ some d
        · simp only [if_pos h3]
          refine ⟨trivial, ?_⟩
          simp
        · simp only [if_neg h3]
          refine ⟨trivial, ?_⟩
          simp

/-- C1 fails on the code: `activate_license` runs its SELECT and its
UPDATE as separate autocommitted statements with no enclosing
transaction, so in the interleaving SELECT-A, SELECT-B, UPDATE-A,
UPDATE-B both activations of the same unused key from distinct devices
succeed (`success:true` twice) and the last writer's device ends up
bound — while running B only after A has fully committed yields the
DeviceMismatch the claim demands. -/
theorem c1_race_both_succeed :
    (racy_double_activate c1st "KR" "devA" "devB" 0).1 = true
    ∧ (racy_double_activate c1st "KR" "devA" "devB" 0).2.1 = true
    ∧ lookupLicense (racy_double_activate c1st "KR" "devA" "devB" 0).2.2 "KR"
        = some { c1rec with device_id := some "devB", is_used := true,
                            activated_at := some 0 }
    ∧ "devA" ≠ "devB"
    ∧ (activate_license (activate_license c1st "KR" (some "devA") 0 "ipA").2
        "KR" (some "devB") 0 "ipB").1 = .deviceMismatch := by decide

-- ═════════════════════════════════════════════════════════════════
-- Claim C5 — no collision retry in create
-- ═════════════════════════════════════════════════════════════════

/-- C5 fails on the code: `create_license` samples the generator exactly
once and INSERTs without consulting the store, so with a store already
holding the sampled key the creation surfaces the duplicate-key fault
directly — even though resampling once (the retry the claim requires)
would have produced a fresh key and succeeded. -/
theorem c5_no_retry_on_collision :
    create_license c5gen c5st "monthly" 30 none 0 = .error .duplicateKey
    ∧ (c5st.licenses.any (fun r => r.license_key == c5gen 1)) = false
    ∧ create_license (fun n => c5gen (n + 1)) c5st "monthly" 30 none 0
        = .ok ("GNP-BBBB-BBBB-BBBB",
            ⟨c5st.licenses ++
              [⟨"GNP-BBBB-BBBB-BBBB", none, none, "monthly", 0, none, 30, true, false⟩],
             []⟩) := by
  refine ⟨rfl, rfl, rfl⟩

-- ═════════════════════════════════════════════════════════════════
-- Claim C8 — key format
-- ═════════════════════════════════════════════════════════════════

/-- Any string assembled as `GNP-` plus three 4-character segments of
characters from the unambiguous alphabet satisfies the spec grammar. -/
theorem specKeyFormat_of_chars (p0 p1 p2 p3 q0 q1 q2 q3 s0 s1 s2 s3 : Char)
    (h : ([p0, p1, p2, p3, q0, q1, q2, q3, s0, s1, s2, s3].all
        (fun ch => SERVER_CHARS.contains ch)) = true) :
    specKeyFormat (String.mk ('G' :: 'N' :: 'P' :: '-' ::
        ([p0, p1, p2, p3] ++ '-' :: ([q0, q1, q2, q3] ++ '-' :: [s0, s1, s2, s3]))))
      = true := h

/-- C8 (amended: only the server's generator obeys the format — the bulk
utilities draw from the full uppercase+digit alphabet, 0/O/1/I included,
and the lifetime/5-day generators emit four random segments): every key
produced by the server's `generate_license_code` matches
`GNP-XXXX-XXXX-XXXX` over the unambiguous alphabet, for every possible
draw of the random oracle. -/
theorem c8_server_generator_format (choice : Nat → Nat) :
    specKeyFormat (generate_license_code choice) = true := by
  have h : ([pickChar SERVER_CHARS choice 0, pickChar SERVER_CHARS choice 1,
      pickChar SERVER_CHARS choice 2, pickChar SERVER_CHARS choice 3,
      pickChar SERVER_CHARS choice 4, pickChar SERVER_CHARS choice 5,
      pickChar SERVER_CHARS choice 6, pickChar SERVER_CHARS choice 7,
      pickChar SERVER_CHARS choice 8, pickChar SERVER_CHARS choice 9,
      pickChar SERVER_CHARS choice 10, pickChar SERVER_CHARS choice 11].all
        (fun ch => SERVER_CHARS.contains ch)) = true := by
    simp [pickChar_mem_SERVER]
  exact specKeyFormat_of_chars _ _ _ _ _ _ _ _ _ _ _ _ h

/-- Counterexample to C8 as stated: the lifetime bulk generator emits a
four-segment key, and the 30-day bulk generator can emit the confusable
character 0 — neither matches the spec grammar. -/
theorem c8_counterexample :
    specKeyFormat (generate_code_lifetime (fun _ => 0)) = false
    ∧ specKeyFormat (generate_code_bulk (fun _ => 26)) = false
    ∧ generate_code_bulk (fun _ => 26) = "GNP-0000-0000-0000"
    ∧ generate_code_lifetime (fun _ => 0) = "GNP-AAAA-AAAA-AAAA-AAAA" := by decide

-- ═════════════════════════════════════════════════════════════════
-- Claim C10 — used-iff-bound record invariant
-- ═════════════════════════════════════════════════════════════════

/-- C10: every modeled operation preserves the invariant that `is_used = 1`
holds exactly when `device_id` is non-NULL — activation sets both
together, deactivation clears both together, verify/extend/suspend/resume
touch neither — and creation appends a record with both unset. -/
theorem c10_used_iff_bound (st : DbState) (h : stInv st) (raw_key : String)
    (device_id : Option String) (now : Int) (ip : String) (days : Int) (b : Bool)
    (gen : Nat → String) (plan : String) (user_name : Option String) :
    stInv (activate_license st raw_key device_id now ip).2
    ∧ stInv (verify_license st raw_key device_id now ip).2
    ∧ stInv (deactivate_license st raw_key device_id ip).2
    ∧ stInv (extend_command st raw_key days now).2
    ∧ stInv (set_is_active st raw_key b)
    ∧ (∀ k st', create_license gen st plan days user_name now = .ok (k, st') →
        stInv st'
        ∧ st'.licenses = st.licenses ++
            [⟨gen 0, none, user_name, plan, now, none, now + days, true, false⟩]) := by
  refine ⟨?_, ?_, ?_, ?_, ?_, ?_⟩
  · -- activate
    cases device_id with
    | none => exact h
    | some d =>
      by_cases hmf : pyUpper raw_key = "" ∨ d = ""
      · simp only [activate_license, if_pos hmf]
        exact h
      · simp only [activate_license, if_neg hmf]
        cases hL : lookupLicense st (pyUpper raw_key) with
        | none => exact h
        | some r =>
          by_cases h1 : r.is_active = false
          · simp only [if_pos h1]
            exact h
          · simp only [if_neg h1]
            by_cases h2 : r.expires_at < now
            · simp only [if_pos h2]
              exact h
            · simp only [if_neg h2]
              by_cases h3 : r.is_used = true ∧ r.device_id ≠ some d
              · simp only [if_pos h3]
                exact h
              · simp only [if_neg h3]
                refine fun q hq => stInv_map st.licenses _ h ?_ q hq
                intro r' _ hinv
                by_cases hc : (r'.license_key == pyUpper raw_key) = true
                · simp only [if_pos hc]
                  simp [recInv]
                · simp only [if_neg hc]
                  exact hinv
  · -- verify
    intro q hq
    rw [verify_licenses_frame] at hq
    exact h q hq
  · -- deactivate
    refine fun q hq => stInv_map st.licenses _ h ?_ q hq
    intro r' _ hinv
    by_cases hc : (r'.license_key == pyUpper raw_key
        && sqlStrEq r'.device_id device_id) = true
    · simp only [if_pos hc]
      simp [recInv]
    · simp only [if_neg hc]
      exact hinv
  · -- extend
    cases hL : lookupLicense st (pyUpper raw_key) with
    | none =>
      simp only [extend_command, hL]
      exact h
    | some r =>
      simp only [extend_command, hL]
      refine fun q hq => stInv_map st.licenses _ h ?_ q hq
      intro r' _ hinv
      by_cases hc : (r'.license_key == pyUpper raw_key) = true
      · simp only [if_pos hc]
        exact hinv
      · simp only [if_neg hc]
        exact hinv
  · -- set_is_active
    refine fun q hq => stInv_map st.licenses _ h ?_ q hq
    intro r' _ hinv
    by_cases hc : (r'.license_key == pyUpper raw_key) = true
    · simp only [if_pos hc]
      exact hinv
    · simp only [if_neg hc]
      exact hinv
  · -- create
    intro k st' hok
    by_cases hdup : (st.licenses.any (fun r => r.license_key == gen 0)) = true
    · simp only [create_license, insertLicense, if_pos hdup] at hok
      cases hok
    · simp only [create_license, insertLicense, if_neg hdup] at hok
      injection hok with hpair
      rw [Prod.mk.injEq] at hpair
      obtain ⟨_, hst'⟩ := hpair
      subst hst'
      constructor
      · intro q hq
        rcases List.mem_append.mp hq with hq | hq
        · exact h q hq
        · rw [List.mem_singleton] at hq
          subst hq
          simp [recInv]
      · rfl

/-- Witness for C10: the invariant holds for a concrete two-record store
and is preserved by a successful activation of its unused record. -/
theorem c10_witness :
    stInv c10st ∧ stInv (activate_license c10st "KB" (some "H") 0 "ip").2 := by
  refine ⟨by decide, ?_⟩
  exact (c10_used_iff_bound c10st (by decide) "KB" (some "H") 0 "ip" 30 true
    (fun _ => "X") "monthly" none).1

end GoldLicense
